import Mathlib

/-!
Verification of the `restaurant_quantity_analysis` Odoo module.

The module defines four records — `restaurant.ingredient`,
`restaurant.dish`, `restaurant.dish.ingredient` and `restaurant.sale` —
and one piece of behaviour: `RestaurantSale.create` persists the new
sale and then, for each ingredient line of the sold dish, subtracts
`quantity_required * quantity_sold` from the referenced ingredient's
`quantity_available` (models/sales_analysis.py).

The embedding below mirrors the source.  Monetary/stock quantities are
Odoo `Float` fields; they are modelled as exact rationals `ℚ`, and
`quantity_sold` (an `Integer` field) as `ℤ`.  The database is a record
holding the ingredient table (a map from record id to the ingredient
record), the dish table, the dish-ingredient line table and the sale
table.  A dish's One2many `ingredient_ids` is the set of line records
whose `dish_id` points at it, exactly as the ORM derives it.
-/

namespace RestaurantQA

/-- An `restaurant.ingredient` record (models/ingredient.py):
display name, quantity on hand in kg, and low-stock threshold. -/
@[ext]
structure Ingredient where
  name : String
  quantity_available : ℚ
  minimum_quantity : ℚ
deriving DecidableEq

/-- A `restaurant.dish.ingredient` line record (models/dish.py):
parent dish, consumed ingredient, and kg required per dish unit. -/
@[ext]
structure DishIngredient where
  dish_id : Nat
  ingredient_id : Nat
  quantity_required : ℚ
deriving DecidableEq

/-- A `restaurant.dish` record (models/dish.py).  Its `ingredient_ids`
One2many is derived from the line table, not stored here. -/
@[ext]
structure Dish where
  name : String
deriving DecidableEq

/-- A `restaurant.sale` record (models/sales_analysis.py): dish sold,
units sold, and sale date (a date modelled as an abstract day number). -/
@[ext]
structure Sale where
  dish_id : Nat
  quantity_sold : Int
  sale_date : Nat
deriving DecidableEq

/-- The database state: the four tables of the module.  Ingredients and
dishes are keyed by record id; lines and sales are kept as lists of
records. -/
structure DB where
  ingredients : Nat → Ingredient
  dishes : List (Nat × Dish)
  lines : List DishIngredient
  sales : List Sale

/-- The One2many `ingredient_ids` of dish `d`: the line records whose
`dish_id` is `d` (models/dish.py, `One2many('restaurant.dish.ingredient',
'dish_id')`). -/
def DB.linesFor (db : DB) (d : Nat) : List DishIngredient :=
  db.lines.filter (fun l => l.dish_id = d)

/-- The body of the deduction loop in `RestaurantSale.create`:
`ingredient.quantity_available -= item.quantity_required * record.quantity_sold`.
Only the referenced ingredient's `quantity_available` is written. -/
def deductLine (n : Int) (db : DB) (item : DishIngredient) : DB :=
  { db with ingredients := fun j =>
      if j = item.ingredient_id then
        { db.ingredients j with quantity_available :=
            (db.ingredients j).quantity_available - item.quantity_required * (n : ℚ) }
      else db.ingredients j }

/-- The caller-supplied `vals` of a sale creation: the dish and the
number of units sold (`sale_date` defaults, so it is not part of vals). -/
structure SaleVals where
  dish_id : Nat
  quantity_sold : Int
deriving DecidableEq

/-- `RestaurantSale.create` (models/sales_analysis.py): persist the new
sale via the generic create (`super().create(vals)`, with `sale_date`
defaulting to today), then iterate `record.dish_id.ingredient_ids` and
subtract `quantity_required * quantity_sold` from each referenced
ingredient, and finally return the created record. -/
def RestaurantSale.create (db : DB) (vals : SaleVals) (today : Nat) : DB × Sale :=
  let record : Sale :=
    { dish_id := vals.dish_id, quantity_sold := vals.quantity_sold, sale_date := today }
  let db1 : DB := { db with sales := db.sales ++ [record] }
  let db2 : DB := (db1.linesFor record.dish_id).foldl (deductLine record.quantity_sold) db1
  (db2, record)

/-- Deleting a `restaurant.dish` record: the generic unlink removes the
dish row, and the `ondelete='cascade'` declared on
`DishIngredient.dish_id` (models/dish.py) removes every line whose
`dish_id` points at the deleted dish.  No other table is touched. -/
def RestaurantDish.unlink (db : DB) (d : Nat) : DB :=
  { db with
      dishes := db.dishes.filter (fun p => p.1 ≠ d),
      lines := db.lines.filter (fun l => l.dish_id ≠ d) }

/-- Total kg of ingredient `i` consumed by one unit of a dish whose line
list is `L`: the sum of `quantity_required` over every line of `L`
referencing `i` (each line counted once). -/
def totalRequired (L : List DishIngredient) (i : Nat) : ℚ :=
  ((L.filter (fun l => l.ingredient_id = i)).map DishIngredient.quantity_required).sum

/-- A small concrete database used to evaluate the theorems on closed
inputs: ingredient 0 is Flour with 10 kg on hand, every other id is
Sugar with 4 kg on hand, one dish Pizza (id 0), and line table `ls`. -/
def exDB (ls : List DishIngredient) : DB :=
  { ingredients := fun j =>
      if j = 0 then { name := "Flour", quantity_available := 10, minimum_quantity := 1 }
      else { name := "Sugar", quantity_available := 4, minimum_quantity := 1 },
    dishes := [(0, { name := "Pizza" })],
    lines := ls,
    sales := [] }

/-- Pizza consumes 2 kg of ingredient 0 and 3 kg of ingredient 1. -/
def exLinesDistinct : List DishIngredient :=
  [{ dish_id := 0, ingredient_id := 0, quantity_required := 2 },
   { dish_id := 0, ingredient_id := 1, quantity_required := 3 }]

/-- The same two lines in the opposite order. -/
def exLinesSwapped : List DishIngredient :=
  [{ dish_id := 0, ingredient_id := 1, quantity_required := 3 },
   { dish_id := 0, ingredient_id := 0, quantity_required := 2 }]

/-- Pizza has two lines that both consume ingredient 0 (2 kg and 3 kg). -/
def exLinesDup : List DishIngredient :=
  [{ dish_id := 0, ingredient_id := 0, quantity_required := 2 },
   { dish_id := 0, ingredient_id := 0, quantity_required := 3 }]

theorem totalRequired_nil (i : Nat) : totalRequired [] i = 0 := rfl

theorem totalRequired_cons (l : DishIngredient) (ls : List DishIngredient) (i : Nat) :
    totalRequired (l :: ls) i =
      (if l.ingredient_id = i then l.quantity_required else 0) + totalRequired ls i := by
  by_cases h : l.ingredient_id = i <;>
    simp [totalRequired, List.filter_cons, h]

theorem totalRequired_eq_zero (L : List DishIngredient) (i : Nat)
    (h : ∀ l ∈ L, l.ingredient_id ≠ i) : totalRequired L i = 0 := by
  induction L with
  | nil => rfl
  | cons l ls ih =>
      rw [totalRequired_cons, if_neg (h l (List.mem_cons_self l ls)),
        ih (fun x hx => h x (List.mem_cons_of_mem l hx)), add_zero]

/-- Running the deduction loop over line list `L` rewrites ingredient
`i` to its old record with `quantity_available` decreased by
`totalRequired L i * n`; name and threshold are untouched. -/
theorem foldl_deduct_ingredients (n : Int) (L : List DishIngredient) (db : DB) (i : Nat) :
    ((L.foldl (deductLine n) db).ingredients i) =
      { db.ingredients i with quantity_available :=
          (db.ingredients i).quantity_available - totalRequired L i * (n : ℚ) } := by
  induction L generalizing db with
  | nil =>
      simp only [List.foldl_nil, totalRequired_nil, zero_mul, sub_zero]
  | cons l ls ih =>
      rw [List.foldl_cons, ih, totalRequired_cons]
      by_cases h : l.ingredient_id = i
      · simp only [deductLine, h, if_pos rfl, if_pos h]
        ext <;> simp
        ring
      · have hne : i ≠ l.ingredient_id := fun hc => h hc.symm
        simp only [deductLine, if_neg hne, if_neg h, zero_add]

theorem foldl_deduct_dishes (n : Int) (L : List DishIngredient) (db : DB) :
    (L.foldl (deductLine n) db).dishes = db.dishes := by
  induction L generalizing db with
  | nil => rfl
  | cons l ls ih => rw [List.foldl_cons, ih]; rfl

theorem foldl_deduct_lines (n : Int) (L : List DishIngredient) (db : DB) :
    (L.foldl (deductLine n) db).lines = db.lines := by
  induction L generalizing db with
  | nil => rfl
  | cons l ls ih => rw [List.foldl_cons, ih]; rfl

theorem foldl_deduct_sales (n : Int) (L : List DishIngredient) (db : DB) :
    (L.foldl (deductLine n) db).sales = db.sales := by
  induction L generalizing db with
  | nil => rfl
  | cons l ls ih => rw [List.foldl_cons, ih]; rfl

/-- The effect of `RestaurantSale.create` on ingredient `i`, in closed
form: the old record with `quantity_available` decreased by
`totalRequired (lines of the dish) i * quantity_sold`. -/
theorem create_ingredients (db : DB) (vals : SaleVals) (today : Nat) (i : Nat) :
    ((RestaurantSale.create db vals today).1.ingredients i) =
      { db.ingredients i with
        quantity_available :=
          (db.ingredients i).quantity_available -
            totalRequired (db.linesFor vals.dish_id) i * (vals.quantity_sold : ℚ) } := by
  unfold RestaurantSale.create
  exact foldl_deduct_ingredients _ _ _ _

theorem create_returns_record (db : DB) (vals : SaleVals) (today : Nat) :
    (RestaurantSale.create db vals today).2 =
      { dish_id := vals.dish_id, quantity_sold := vals.quantity_sold, sale_date := today } := rfl

theorem totalRequired_of_nodup (L : List DishIngredient) (item : DishIngredient)
    (hmem : item ∈ L) (hnd : (L.map DishIngredient.ingredient_id).Nodup) :
    totalRequired L item.ingredient_id = item.quantity_required := by
  induction L with
  | nil => cases hmem
  | cons l ls ih =>
      rw [List.map_cons, List.nodup_cons] at hnd
      rcases List.mem_cons.mp hmem with h | h
      · subst h
        rw [totalRequired_cons, if_pos rfl, totalRequired_eq_zero ls item.ingredient_id
          (fun x hx hc => hnd.1 (hc ▸ List.mem_map_of_mem DishIngredient.ingredient_id hx)),
          add_zero]
      · have hne : l.ingredient_id ≠ item.ingredient_id := fun hc =>
          hnd.1 (hc ▸ List.mem_map_of_mem DishIngredient.ingredient_id h)
        rw [totalRequired_cons, if_neg hne, ih h hnd.2, zero_add]

/-- Claim C1: for a sale against a dish whose ingredient lines reference
pairwise-distinct ingredients, creation decreases each referenced
ingredient's `quantity_available` by exactly its line's
`quantity_required * quantity_sold` relative to the pre-sale value, and
returns the created sale record to the caller. -/
theorem create_deducts_each_line_and_returns_sale
    (db : DB) (vals : SaleVals) (today : Nat) (item : DishIngredient)
    (hmem : item ∈ db.linesFor vals.dish_id)
    (hnd : ((db.linesFor vals.dish_id).map DishIngredient.ingredient_id).Nodup) :
    ((RestaurantSale.create db vals today).1.ingredients item.ingredient_id).quantity_available
        = (db.ingredients item.ingredient_id).quantity_available -
            item.quantity_required * (vals.quantity_sold : ℚ)
      ∧ (RestaurantSale.create db vals today).2 =
          { dish_id := vals.dish_id, quantity_sold := vals.quantity_sold, sale_date := today } := by
  refine ⟨?_, rfl⟩
  rw [create_ingredients db vals today item.ingredient_id]
  dsimp only
  rw [totalRequired_of_nodup _ item hmem hnd]

theorem create_deducts_witness :
    ((RestaurantSale.create (exDB exLinesDistinct)
          { dish_id := 0, quantity_sold := 4 } 7).1.ingredients 0).quantity_available
        = ((exDB exLinesDistinct).ingredients 0).quantity_available - 2 * ((4 : ℤ) : ℚ)
      ∧ (RestaurantSale.create (exDB exLinesDistinct)
          { dish_id := 0, quantity_sold := 4 } 7).2 =
          { dish_id := 0, quantity_sold := 4, sale_date := 7 } :=
  create_deducts_each_line_and_returns_sale (exDB exLinesDistinct)
    { dish_id := 0, quantity_sold := 4 } 7
    { dish_id := 0, ingredient_id := 0, quantity_required := 2 }
    (by decide) (by decide)

/-- Claim C2: when the same ingredient is referenced by more than one
line of the sold dish, each line's deduction is applied independently:
the ingredient's total decrease is the sum, over all lines referencing
it, of `quantity_required * quantity_sold` (cumulative, not
deduplicated). -/
theorem create_duplicate_lines_cumulative
    (db : DB) (vals : SaleVals) (today : Nat) (i : Nat)
    (_hdup : 2 ≤ ((db.linesFor vals.dish_id).filter
      (fun l => l.ingredient_id = i)).length) :
    ((RestaurantSale.create db vals today).1.ingredients i).quantity_available
      = (db.ingredients i).quantity_available -
          (((db.linesFor vals.dish_id).filter (fun l => l.ingredient_id = i)).map
            (fun l => l.quantity_required * (vals.quantity_sold : ℚ))).sum := by
  rw [create_ingredients db vals today i]
  dsimp only
  rw [totalRequired, ← List.sum_map_mul_right]

theorem create_duplicate_lines_witness :
    ((RestaurantSale.create (exDB exLinesDup)
          { dish_id := 0, quantity_sold := 4 } 7).1.ingredients 0).quantity_available
      = ((exDB exLinesDup).ingredients 0).quantity_available -
          ((((exDB exLinesDup).linesFor 0).filter (fun l => l.ingredient_id = 0)).map
            (fun l => l.quantity_required * ((4 : ℤ) : ℚ))).sum :=
  create_duplicate_lines_cumulative (exDB exLinesDup)
    { dish_id := 0, quantity_sold := 4 } 7 0 (by decide)

/-- Claim C3: each ingredient line is processed exactly once — the
final stock of ingredient `i` is the initial stock minus the
once-per-line sum `totalRequired` times `quantity_sold` — and the order
of the lines is irrelevant: creates over permuted line tables yield the
same final `quantity_available` for every ingredient. -/
theorem create_line_order_irrelevant
    (dbA dbB : DB) (vals : SaleVals) (today : Nat) (i : Nat)
    (hing : dbA.ingredients = dbB.ingredients)
    (hperm : dbA.lines.Perm dbB.lines) :
    ((RestaurantSale.create dbA vals today).1.ingredients i).quantity_available
        = (dbA.ingredients i).quantity_available -
            totalRequired (dbA.linesFor vals.dish_id) i * (vals.quantity_sold : ℚ)
      ∧ ((RestaurantSale.create dbA vals today).1.ingredients i).quantity_available
        = ((RestaurantSale.create dbB vals today).1.ingredients i).quantity_available := by
  constructor
  · rw [create_ingredients dbA vals today i]
  · rw [create_ingredients dbA vals today i, create_ingredients dbB vals today i]
    dsimp only
    rw [hing]
    have hlines : (dbA.linesFor vals.dish_id).Perm (dbB.linesFor vals.dish_id) :=
      hperm.filter _
    have hsum : totalRequired (dbA.linesFor vals.dish_id) i
        = totalRequired (dbB.linesFor vals.dish_id) i :=
      ((hlines.filter _).map DishIngredient.quantity_required).sum_eq
    rw [hsum]

theorem create_line_order_witness :
    ((RestaurantSale.create (exDB exLinesDistinct)
          { dish_id := 0, quantity_sold := 4 } 7).1.ingredients 0).quantity_available
        = ((exDB exLinesDistinct).ingredients 0).quantity_available -
            totalRequired ((exDB exLinesDistinct).linesFor 0) 0 * ((4 : ℤ) : ℚ)
      ∧ ((RestaurantSale.create (exDB exLinesDistinct)
          { dish_id := 0, quantity_sold := 4 } 7).1.ingredients 0).quantity_available
        = ((RestaurantSale.create (exDB exLinesSwapped)
          { dish_id := 0, quantity_sold := 4 } 7).1.ingredients 0).quantity_available :=
  create_line_order_irrelevant (exDB exLinesDistinct) (exDB exLinesSwapped)
    { dish_id := 0, quantity_sold := 4 } 7 0 rfl (List.Perm.swap _ _ _)

/-- Claim C4: creating a sale with negative `quantity_sold` applies the
arithmetic unconditionally and runs the deduction in reverse: each
referenced ingredient (here with a positive requirement and
pairwise-distinct ingredient references) changes by
`-quantity_required * quantity_sold`, i.e. its stock strictly
increases by `quantity_required * |quantity_sold|`. -/
theorem create_negative_quantity_inverse
    (db : DB) (vals : SaleVals) (today : Nat) (item : DishIngredient)
    (hmem : item ∈ db.linesFor vals.dish_id)
    (hnd : ((db.linesFor vals.dish_id).map DishIngredient.ingredient_id).Nodup)
    (hneg : vals.quantity_sold < 0)
    (hq : 0 < item.quantity_required) :
    ((RestaurantSale.create db vals today).1.ingredients item.ingredient_id).quantity_available
        = (db.ingredients item.ingredient_id).quantity_available +
            item.quantity_required * ((-vals.quantity_sold : ℤ) : ℚ)
      ∧ (db.ingredients item.ingredient_id).quantity_available
        < ((RestaurantSale.create db vals today).1.ingredients
            item.ingredient_id).quantity_available := by
  have h1 : ((RestaurantSale.create db vals today).1.ingredients
      item.ingredient_id).quantity_available
      = (db.ingredients item.ingredient_id).quantity_available -
          item.quantity_required * (vals.quantity_sold : ℚ) := by
    rw [create_ingredients db vals today item.ingredient_id]
    dsimp only
    rw [totalRequired_of_nodup _ item hmem hnd]
  have hcast : ((vals.quantity_sold : ℤ) : ℚ) < 0 := by exact_mod_cast hneg
  constructor
  · rw [h1]
    push_cast
    ring
  · rw [h1]
    have hprod : item.quantity_required * (vals.quantity_sold : ℚ) < 0 :=
      mul_neg_of_pos_of_neg hq hcast
    linarith

theorem create_negative_quantity_witness :
    ((RestaurantSale.create (exDB exLinesDistinct)
          { dish_id := 0, quantity_sold := -4 } 7).1.ingredients 0).quantity_available
        = ((exDB exLinesDistinct).ingredients 0).quantity_available +
            2 * ((-(-4 : ℤ) : ℤ) : ℚ)
      ∧ ((exDB exLinesDistinct).ingredients 0).quantity_available
        < ((RestaurantSale.create (exDB exLinesDistinct)
            { dish_id := 0, quantity_sold := -4 } 7).1.ingredients 0).quantity_available :=
  create_negative_quantity_inverse (exDB exLinesDistinct)
    { dish_id := 0, quantity_sold := -4 } 7
    { dish_id := 0, ingredient_id := 0, quantity_required := 2 }
    (by decide) (by decide) (by decide) (by norm_num)

/-- Claim C5: creating a sale with `quantity_sold = 0` deducts zero
from every referenced ingredient, leaving every ingredient's
`quantity_available` unchanged. -/
theorem create_zero_quantity_sold_noop
    (db : DB) (d : Nat) (today : Nat) (i : Nat) :
    ((RestaurantSale.create db { dish_id := d, quantity_sold := 0 }
        today).1.ingredients i).quantity_available
      = (db.ingredients i).quantity_available := by
  rw [create_ingredients db { dish_id := d, quantity_sold := 0 } today i]
  dsimp only
  norm_num

/-- Claim C6: creating a sale for a dish that has no ingredient lines
performs no deduction: every ingredient record is unchanged. -/
theorem create_no_lines_no_deduction
    (db : DB) (vals : SaleVals) (today : Nat) (i : Nat)
    (h : db.linesFor vals.dish_id = []) :
    (RestaurantSale.create db vals today).1.ingredients i = db.ingredients i := by
  rw [create_ingredients db vals today i, h, totalRequired_nil, zero_mul, sub_zero]

theorem create_no_lines_witness :
    (RestaurantSale.create (exDB [])
        { dish_id := 0, quantity_sold := 4 } 7).1.ingredients 0
      = (exDB []).ingredients 0 :=
  create_no_lines_no_deduction (exDB []) { dish_id := 0, quantity_sold := 4 } 7 0 (by decide)

/-- Claim C7: in the concrete scenario where Flour has 10.0 kg on hand
and Pizza has a single line requiring 0.2 kg of Flour, creating a sale
of 5 Pizzas leaves Flour with exactly 9.0 kg. -/
theorem create_pizza_flour_scenario :
    ((RestaurantSale.create
        { ingredients := fun _ =>
            { name := "Flour", quantity_available := 10, minimum_quantity := 0 },
          dishes := [(0, { name := "Pizza" })],
          lines := [{ dish_id := 0, ingredient_id := 0, quantity_required := 0.2 }],
          sales := [] }
        { dish_id := 0, quantity_sold := 5 } 7).1.ingredients 0).quantity_available = 9 := by
  rw [create_ingredients]
  dsimp only
  norm_num [DB.linesFor, totalRequired]

/-- Claim C8: deleting a dish removes every ingredient line whose
`dish_id` points at it (the declared `ondelete` cascade), keeps the
lines of every other dish, and does not alter any ingredient record
(in particular no `quantity_available`). -/
theorem unlink_cascades_and_preserves_ingredients (db : DB) (d : Nat) :
    (∀ l ∈ (RestaurantDish.unlink db d).lines, l.dish_id ≠ d)
      ∧ (∀ l ∈ db.lines, l.dish_id ≠ d → l ∈ (RestaurantDish.unlink db d).lines)
      ∧ (RestaurantDish.unlink db d).ingredients = db.ingredients := by
  refine ⟨?_, ?_, rfl⟩
  · intro l hl
    have hp := List.of_mem_filter hl
    simpa using hp
  · intro l hl hne
    exact List.mem_filter.mpr ⟨hl, by simpa using hne⟩

/-- Claim C9: the deduction rule validates nothing and raises nothing
of its own: for every database, vals and ingredient — any
`quantity_sold`, any requirements, any resulting stock — the creation
completes and its effect is the unconditional arithmetic above; and
stock may end up negative with no clamping, as the closed run in the
second conjunct shows (Flour goes to 10 - 2*9 < 0). -/
theorem create_no_validation_no_clamping :
    (∀ (db : DB) (vals : SaleVals) (today : Nat) (i : Nat),
        ((RestaurantSale.create db vals today).1.ingredients i).quantity_available
          = (db.ingredients i).quantity_available -
              totalRequired (db.linesFor vals.dish_id) i * (vals.quantity_sold : ℚ))
      ∧ ((RestaurantSale.create (exDB exLinesDistinct)
            { dish_id := 0, quantity_sold := 9 } 7).1.ingredients 0).quantity_available < 0 := by
  constructor
  · intro db vals today i
    rw [create_ingredients db vals today i]
  · rw [create_ingredients (exDB exLinesDistinct) { dish_id := 0, quantity_sold := 9 } 7 0]
    dsimp only
    norm_num [exDB, exLinesDistinct, DB.linesFor, totalRequired]

/-- Claim C10: the deduction side effect writes nothing but the
`quantity_available` of ingredients referenced by the sold dish's
lines: an ingredient referenced by no line of the dish keeps its whole
record; every ingredient keeps its name and minimum threshold; the dish
table and the line table (hence every `quantity_required`) are
unchanged; the sale table gains exactly the created record, whose
fields are exactly the requested ones. -/
theorem create_frame
    (db : DB) (vals : SaleVals) (today : Nat) (i j : Nat)
    (h : ∀ l ∈ db.linesFor vals.dish_id, l.ingredient_id ≠ i) :
    (RestaurantSale.create db vals today).1.ingredients i = db.ingredients i
      ∧ ((RestaurantSale.create db vals today).1.ingredients j).name
          = (db.ingredients j).name
      ∧ ((RestaurantSale.create db vals today).1.ingredients j).minimum_quantity
          = (db.ingredients j).minimum_quantity
      ∧ (RestaurantSale.create db vals today).1.dishes = db.dishes
      ∧ (RestaurantSale.create db vals today).1.lines = db.lines
      ∧ (RestaurantSale.create db vals today).1.sales
          = db.sales ++ [(RestaurantSale.create db vals today).2]
      ∧ (RestaurantSale.create db vals today).2
          = { dish_id := vals.dish_id, quantity_sold := vals.quantity_sold,
              sale_date := today } := by
  refine ⟨?_, ?_, ?_, ?_, ?_, ?_, rfl⟩
  · rw [create_ingredients db vals today i, totalRequired_eq_zero _ _ h, zero_mul, sub_zero]
  · rw [create_ingredients db vals today j]
  · rw [create_ingredients db vals today j]
  · exact foldl_deduct_dishes _ _ _
  · exact foldl_deduct_lines _ _ _
  · exact foldl_deduct_sales _ _ _

theorem create_frame_witness :
    (RestaurantSale.create (exDB exLinesDistinct)
        { dish_id := 0, quantity_sold := 4 } 7).1.ingredients 5
        = (exDB exLinesDistinct).ingredients 5
      ∧ ((RestaurantSale.create (exDB exLinesDistinct)
          { dish_id := 0, quantity_sold := 4 } 7).1.ingredients 0).name
          = ((exDB exLinesDistinct).ingredients 0).name
      ∧ ((RestaurantSale.create (exDB exLinesDistinct)
          { dish_id := 0, quantity_sold := 4 } 7).1.ingredients 0).minimum_quantity
          = ((exDB exLinesDistinct).ingredients 0).minimum_quantity
      ∧ (RestaurantSale.create (exDB exLinesDistinct)
          { dish_id := 0, quantity_sold := 4 } 7).1.dishes = (exDB exLinesDistinct).dishes
      ∧ (RestaurantSale.create (exDB exLinesDistinct)
          { dish_id := 0, quantity_sold := 4 } 7).1.lines = (exDB exLinesDistinct).lines
      ∧ (RestaurantSale.create (exDB exLinesDistinct)
          { dish_id := 0, quantity_sold := 4 } 7).1.sales
          = (exDB exLinesDistinct).sales ++
              [(RestaurantSale.create (exDB exLinesDistinct)
                { dish_id := 0, quantity_sold := 4 } 7).2]
      ∧ (RestaurantSale.create (exDB exLinesDistinct)
          { dish_id := 0, quantity_sold := 4 } 7).2
          = { dish_id := 0, quantity_sold := 4, sale_date := 7 } :=
  create_frame (exDB exLinesDistinct) { dish_id := 0, quantity_sold := 4 } 7 5 0 (by decide)

end RestaurantQA
